import Mathlib

/-!
Shallow embedding of the ZTE C320 OLT Prometheus exporter's collection
pipeline (`internal/exporter/collector.go`, `internal/usecase/onu.go`).
Device records, the deduplicating merge over serial numbers, the metric
emission gating, address resolution, uptime derivation and pagination are
translated directly from the Go source; the SNMP transport and the Go
standard-library parsers (`strconv.ParseFloat`, `time.Parse`) are
abstracted as function parameters, exactly where the source calls out to
them.
-/

namespace ZteOlt

/-- `model.ONUCustomerInfo`: the fully decoded detail record for one ONU,
with the fields read and written in `GetByBoardIDPonIDAndOnuID` and
`sendMetrics`.  Go zero values are the defaults. -/
structure ONUCustomerInfo where
  board : Int := 0
  pon : Int := 0
  id : Int := 0
  name : String := ""
  onuType : String := ""
  serialNumber : String := ""
  rxPower : String := ""
  txPower : String := ""
  status : String := ""
  ipAddress : String := ""
  description : String := ""
  lastOnline : String := ""
  lastOffline : String := ""
  uptime : String := ""
  lastDownTimeDuration : String := ""
  lastOfflineReason : String := ""
  gponOpticalDistance : String := ""
  deriving DecidableEq, Repr

/-- `model.ONUInfoPerBoard`: the discovery/pagination record.  Discovery
fills board, pon, id and name; pagination additionally copies detail
fields (`GetByBoardIDAndPonIDWithPagination`). -/
structure ONUInfoPerBoard where
  board : Int := 0
  pon : Int := 0
  id : Int := 0
  name : String := ""
  onuType : String := ""
  serialNumber : String := ""
  rxPower : String := ""
  status : String := ""
  deriving DecidableEq, Repr

/-- `mapStatusToNumeric` in `collector.go`: the Go `switch` on the decoded
status string, written as the equivalent first-match chain. -/
def mapStatusToNumeric (status : String) : Nat :=
  if status = "Online" then 1
  else if status = "Dying Gasp" then 2
  else if status = "LOS" then 3
  else if status = "Power-Off" then 4
  else 0

/-- The per-cycle `uniqueOnus` map (a `sync.Map` keyed by serial number),
modelled as an association list; iteration/insertion order is irrelevant
to the claims. -/
abbrev UniqueOnuMap := List (String × ONUCustomerInfo)

/-- `sync.Map.Load`. -/
def lookupSerial : UniqueOnuMap → String → Option ONUCustomerInfo
  | [], _ => none
  | (k, v) :: rest, s => if k = s then some v else lookupSerial rest s

/-- `sync.Map.Store`: replace the entry for the key, or append a new one. -/
def storeSerial : UniqueOnuMap → String → ONUCustomerInfo → UniqueOnuMap
  | [], s, r => [(s, r)]
  | (k, v) :: rest, s, r =>
      if k = s then (s, r) :: rest else (k, v) :: storeSerial rest s r

/-- One worker's post-fetch step in `Collect` (collector.go lines 103-116):
drop records with an empty serial number, then merge by serial number,
replacing an existing entry only when it decodes to Unknown (numeric 0)
and the incoming record does not. -/
def mergeOnu (m : UniqueOnuMap) (detailedOnu : ONUCustomerInfo) : UniqueOnuMap :=
  if detailedOnu.serialNumber = "" then m
  else
    match lookupSerial m detailedOnu.serialNumber with
    | some existingOnu =>
        if mapStatusToNumeric existingOnu.status = 0 ∧
            mapStatusToNumeric detailedOnu.status ≠ 0 then
          storeSerial m detailedOnu.serialNumber detailedOnu
        else m
    | none => storeSerial m detailedOnu.serialNumber detailedOnu

/-- The merge of a whole cycle's fetched records, in arrival order. -/
def mergeRecords (rs : List ONUCustomerInfo) : UniqueOnuMap :=
  rs.foldl mergeOnu []

/-! ### Duration and timestamp helpers of `collector.go` -/

/-- Value of a digit run, as `strconv.ParseInt` reads it. -/
def digitsToNat (ds : List Char) : Nat :=
  ds.foldl (fun a c => a * 10 + (c.toNat - 48)) 0

/-- Split a character list into its leading digit run and the rest. -/
def takeDigits : List Char → List Char × List Char
  | [] => ([], [])
  | c :: cs =>
      if c.isDigit then
        let r := takeDigits cs
        (c :: r.1, r.2)
      else ([], c :: cs)

/-- Whether the second list starts with the first. -/
def startsWithChars : List Char → List Char → Bool
  | [], _ => true
  | _ :: _, [] => false
  | k :: ks, c :: cs => k = c && startsWithChars ks cs

/-- One attempt of the regex `(\d+)\s*KEYWORD` at a fixed position: a
non-empty digit run, optional whitespace, then the keyword. -/
def matchNumberBefore (kw : List Char) (cs : List Char) : Option Nat :=
  let p := takeDigits cs
  if p.1 = [] then none
  else if startsWithChars kw (p.2.dropWhile (fun c => c.isWhitespace)) then
    some (digitsToNat p.1)
  else none

/-- Leftmost match of `(\d+)\s*KEYWORD`, as `FindStringSubmatch` returns it. -/
def findNumberBefore (kw : List Char) : List Char → Option Nat
  | [] => none
  | c :: cs =>
      match matchNumberBefore kw (c :: cs) with
      | some n => some n
      | none => findNumberBefore kw cs

/-- `parseDurationStringToSeconds` in `collector.go`: sum the `days`,
`hours`, `minutes` and `seconds` components found in the string, each
matched by its regex, missing components contributing nothing. -/
def parseDurationStringToSeconds (durationStr : String) : Int :=
  let cs := durationStr.toList
  let comp := fun (kw : String) (mult : Int) =>
    match findNumberBefore kw.toList cs with
    | some n => (n : Int) * mult
    | none => 0
  comp "days" (24 * 3600) + comp "hours" 3600 + comp "minutes" 60 + comp "seconds" 1

/-- `parseTimestampStringToEpoch` in `collector.go`, with `time.Parse` of
the layout `2006-01-02 15:04:05` abstracted as `timeParse` returning the
Unix epoch seconds: trim, return 0 for an empty or unparseable string. -/
def parseTimestampStringToEpoch (timeParse : String → Option Int)
    (timestampStr : String) : Int :=
  let t := timestampStr.trim
  if t = "" then 0
  else
    match timeParse t with
    | none => 0
    | some v => v

/-! ### Metric emission (`sendMetrics` in `collector.go`) -/

/-- One emitted Prometheus sample, one constructor per series family. -/
inductive Metric where
  | mappingInfo (board pon onuId name serialNumber onuType descriptionLabel
      offlineReason ipAddress : String)
  | status (serialNumber : String) (value : Nat)
  | rxPower (serialNumber : String) (value : Rat)
  | txPower (serialNumber : String) (value : Rat)
  | uptime (serialNumber : String) (value : Int)
  | lastDownDuration (serialNumber : String) (value : Int)
  | lastOnline (serialNumber : String) (value : Int)
  | lastOffline (serialNumber : String) (value : Int)
  | gponOpticalDistance (serialNumber : String) (value : Rat)
  deriving DecidableEq, Repr

/-- The `serial_number` label of a sample. -/
def Metric.serial : Metric → String
  | .mappingInfo _ _ _ _ s _ _ _ _ => s
  | .status s _ => s
  | .rxPower s _ => s
  | .txPower s _ => s
  | .uptime s _ => s
  | .lastDownDuration s _ => s
  | .lastOnline s _ => s
  | .lastOffline s _ => s
  | .gponOpticalDistance s _ => s

/-- The rx-power block of `sendMetrics` (collector.go lines 179-183):
parse the rx power string, emit the sample only when the parse succeeds
and the reading is below 100 ("Filter out invalid readings"). -/
def rxPowerMetric (parseFloat : String → Option Rat)
    (detailedOnu : ONUCustomerInfo) : List Metric :=
  match parseFloat detailedOnu.rxPower with
  | some rxPower =>
      if rxPower < 100 then [Metric.rxPower detailedOnu.serialNumber rxPower] else []
  | none => []

/-- The tx-power block of `sendMetrics` (collector.go lines 188-191). -/
def txPowerMetric (parseFloat : String → Option Rat)
    (detailedOnu : ONUCustomerInfo) : List Metric :=
  match parseFloat detailedOnu.txPower with
  | some txPower =>
      if txPower < 100 then [Metric.txPower detailedOnu.serialNumber txPower] else []
  | none => []

/-- The optical-distance block of `sendMetrics` (collector.go lines
202-206): emit only when the distance string parses. -/
def gponOpticalDistanceMetric (parseFloat : String → Option Rat)
    (detailedOnu : ONUCustomerInfo) : List Metric :=
  match parseFloat detailedOnu.gponOpticalDistance with
  | some distance => [Metric.gponOpticalDistance detailedOnu.serialNumber distance]
  | none => []

/-- `sendMetrics` in `collector.go`, with `strconv.ParseFloat` abstracted
as `parseFloat`: mapping info and status always; rx/tx power only when the
status is `Online` (and the block's own gating passes); uptime, last-down
duration and the two timestamps always; optical distance only when its
string parses. -/
def sendMetrics (parseFloat : String → Option Rat) (timeParse : String → Option Int)
    (detailedOnu : ONUCustomerInfo) : List Metric :=
  [Metric.mappingInfo (toString detailedOnu.board) (toString detailedOnu.pon)
      (toString detailedOnu.id) detailedOnu.name detailedOnu.serialNumber
      detailedOnu.onuType detailedOnu.description detailedOnu.lastOfflineReason
      detailedOnu.ipAddress,
   Metric.status detailedOnu.serialNumber (mapStatusToNumeric detailedOnu.status)]
  ++ (if detailedOnu.status = "Online" then
        rxPowerMetric parseFloat detailedOnu ++ txPowerMetric parseFloat detailedOnu
      else [])
  ++ [Metric.uptime detailedOnu.serialNumber
        (parseDurationStringToSeconds detailedOnu.uptime),
      Metric.lastDownDuration detailedOnu.serialNumber
        (parseDurationStringToSeconds detailedOnu.lastDownTimeDuration),
      Metric.lastOnline detailedOnu.serialNumber
        (parseTimestampStringToEpoch timeParse detailedOnu.lastOnline),
      Metric.lastOffline detailedOnu.serialNumber
        (parseTimestampStringToEpoch timeParse detailedOnu.lastOffline)]
  ++ gponOpticalDistanceMetric parseFloat detailedOnu

/-! ### The scrape cycle (`Collect` in `collector.go`) -/

/-- The transport-facing collaborators of one scrape:
`GetByBoardIDAndPonID` (discovery of one (board, pon) cell) and
`GetByBoardIDPonIDAndOnuID` (one batched detail fetch), each fallible. -/
structure ScrapeEnv where
  discover : Int → Int → Except Unit (List ONUInfoPerBoard)
  fetchDetail : Int → Int → Int → Except Unit ONUCustomerInfo

/-- The records one (board, pon) cell contributes to the merge: none when
its discovery walk fails (the `continue` at collector.go line 126),
otherwise one record per discovered ONU whose detail fetch succeeds (the
`continue` at line 100 skips the failures). -/
def cellRecords (env : ScrapeEnv) (boardID ponID : Int) : List ONUCustomerInfo :=
  match env.discover boardID ponID with
  | .error _ => []
  | .ok onus => onus.filterMap (fun o => (env.fetchDetail boardID ponID o.id).toOption)

/-- The Go loop `for i := lo; i <= hi; i++`. -/
def intRange (lo hi : Int) : List Int :=
  (List.range (hi + 1 - lo).toNat).map (fun i => lo + i)

/-- All records that reach the merge step in one cycle, in job order:
the board×pon matrix is enumerated sequentially and every successful
fetch of a discovered ONU is pushed to the merge. -/
def collectArrivals (env : ScrapeEnv) (boardMin boardMax ponMin ponMax : Int) :
    List ONUCustomerInfo :=
  ((intRange boardMin boardMax).map (fun b =>
    ((intRange ponMin ponMax).map (fun p => cellRecords env b p)).flatten)).flatten

/-- The final per-cycle result of `Collect`: the deduplicating merge of
every arrival. -/
def scrapeResult (env : ScrapeEnv) (boardMin boardMax ponMin ponMax : Int) :
    UniqueOnuMap :=
  mergeRecords (collectArrivals env boardMin boardMax ponMin ponMax)

/-! ### Address resolution (`getBoardConfig` in `onu.go`) -/

/-- One (board, pon) cell of the external configuration: the per-attribute
OID suffixes consumed by `getBoard1Config`/`getBoard2Config`. -/
structure PonConfig where
  onuIDNameOID : String := ""
  onuTypeOID : String := ""
  onuSerialNumberOID : String := ""
  onuRxPowerOID : String := ""
  onuTxPowerOID : String := ""
  onuStatusOID : String := ""
  onuIPAddressOID : String := ""
  onuDescriptionOID : String := ""
  onuLastOnlineOID : String := ""
  onuLastOfflineOID : String := ""
  onuLastOfflineReasonOID : String := ""
  onuGponOpticalDistanceOID : String := ""
  deriving DecidableEq, Repr

/-- `model.OltConfig`: the resolved Address Set for one (board, pon). -/
structure OltConfig where
  baseOID : String
  onuIDNameOID : String
  onuTypeOID : String
  onuSerialNumberOID : String
  onuRxPowerOID : String
  onuTxPowerOID : String
  onuStatusOID : String
  onuIPAddressOID : String
  onuDescriptionOID : String
  onuLastOnlineOID : String
  onuLastOfflineOID : String
  onuLastOfflineReasonOID : String
  onuGponOpticalDistanceOID : String
  deriving DecidableEq, Repr

/-- The configuration tree: the two base OIDs and the 2×16 per-cell tables
read by the board config functions. -/
structure Config where
  baseOID1 : String := ""
  baseOID2 : String := ""
  board1Pon1 : PonConfig := {}
  board1Pon2 : PonConfig := {}
  board1Pon3 : PonConfig := {}
  board1Pon4 : PonConfig := {}
  board1Pon5 : PonConfig := {}
  board1Pon6 : PonConfig := {}
  board1Pon7 : PonConfig := {}
  board1Pon8 : PonConfig := {}
  board1Pon9 : PonConfig := {}
  board1Pon10 : PonConfig := {}
  board1Pon11 : PonConfig := {}
  board1Pon12 : PonConfig := {}
  board1Pon13 : PonConfig := {}
  board1Pon14 : PonConfig := {}
  board1Pon15 : PonConfig := {}
  board1Pon16 : PonConfig := {}
  board2Pon1 : PonConfig := {}
  board2Pon2 : PonConfig := {}
  board2Pon3 : PonConfig := {}
  board2Pon4 : PonConfig := {}
  board2Pon5 : PonConfig := {}
  board2Pon6 : PonConfig := {}
  board2Pon7 : PonConfig := {}
  board2Pon8 : PonConfig := {}
  board2Pon9 : PonConfig := {}
  board2Pon10 : PonConfig := {}
  board2Pon11 : PonConfig := {}
  board2Pon12 : PonConfig := {}
  board2Pon13 : PonConfig := {}
  board2Pon14 : PonConfig := {}
  board2Pon15 : PonConfig := {}
  board2Pon16 : PonConfig := {}
  deriving DecidableEq, Repr

/-- The `model.OltConfig` literal each `case` of the board config switch
builds: `BaseOID` from `cfg.OltCfg.BaseOID1`, every other field copied
from the selected per-cell table. -/
def mkOltConfig (base : String) (p : PonConfig) : OltConfig :=
  { baseOID := base
    onuIDNameOID := p.onuIDNameOID
    onuTypeOID := p.onuTypeOID
    onuSerialNumberOID := p.onuSerialNumberOID
    onuRxPowerOID := p.onuRxPowerOID
    onuTxPowerOID := p.onuTxPowerOID
    onuStatusOID := p.onuStatusOID
    onuIPAddressOID := p.onuIPAddressOID
    onuDescriptionOID := p.onuDescriptionOID
    onuLastOnlineOID := p.onuLastOnlineOID
    onuLastOfflineOID := p.onuLastOfflineOID
    onuLastOfflineReasonOID := p.onuLastOfflineReasonOID
    onuGponOpticalDistanceOID := p.onuGponOpticalDistanceOID }

/-- `getBoard1Config` in `onu.go`: the 16-case switch on the PON ID.
The Go function returns a `*model.OltConfig` that is `nil` on the default
branch (it only logs "Invalid PON ID"); `none` models that nil. -/
def getBoard1Config (cfg : Config) (ponID : Int) : Option OltConfig :=
  if ponID = 1 then some (mkOltConfig cfg.baseOID1 cfg.board1Pon1)
  else if ponID = 2 then some (mkOltConfig cfg.baseOID1 cfg.board1Pon2)
  else if ponID = 3 then some (mkOltConfig cfg.baseOID1 cfg.board1Pon3)
  else if ponID = 4 then some (mkOltConfig cfg.baseOID1 cfg.board1Pon4)
  else if ponID = 5 then some (mkOltConfig cfg.baseOID1 cfg.board1Pon5)
  else if ponID = 6 then some (mkOltConfig cfg.baseOID1 cfg.board1Pon6)
  else if ponID = 7 then some (mkOltConfig cfg.baseOID1 cfg.board1Pon7)
  else if ponID = 8 then some (mkOltConfig cfg.baseOID1 cfg.board1Pon8)
  else if ponID = 9 then some (mkOltConfig cfg.baseOID1 cfg.board1Pon9)
  else if ponID = 10 then some (mkOltConfig cfg.baseOID1 cfg.board1Pon10)
  else if ponID = 11 then some (mkOltConfig cfg.baseOID1 cfg.board1Pon11)
  else if ponID = 12 then some (mkOltConfig cfg.baseOID1 cfg.board1Pon12)
  else if ponID = 13 then some (mkOltConfig cfg.baseOID1 cfg.board1Pon13)
  else if ponID = 14 then some (mkOltConfig cfg.baseOID1 cfg.board1Pon14)
  else if ponID = 15 then some (mkOltConfig cfg.baseOID1 cfg.board1Pon15)
  else if ponID = 16 then some (mkOltConfig cfg.baseOID1 cfg.board1Pon16)
  else none

/-- `getBoard2Config` in `onu.go`: same shape over the board-2 tables. -/
def getBoard2Config (cfg : Config) (ponID : Int) : Option OltConfig :=
  if ponID = 1 then some (mkOltConfig cfg.baseOID1 cfg.board2Pon1)
  else if ponID = 2 then some (mkOltConfig cfg.baseOID1 cfg.board2Pon2)
  else if ponID = 3 then some (mkOltConfig cfg.baseOID1 cfg.board2Pon3)
  else if ponID = 4 then some (mkOltConfig cfg.baseOID1 cfg.board2Pon4)
  else if ponID = 5 then some (mkOltConfig cfg.baseOID1 cfg.board2Pon5)
  else if ponID = 6 then some (mkOltConfig cfg.baseOID1 cfg.board2Pon6)
  else if ponID = 7 then some (mkOltConfig cfg.baseOID1 cfg.board2Pon7)
  else if ponID = 8 then some (mkOltConfig cfg.baseOID1 cfg.board2Pon8)
  else if ponID = 9 then some (mkOltConfig cfg.baseOID1 cfg.board2Pon9)
  else if ponID = 10 then some (mkOltConfig cfg.baseOID1 cfg.board2Pon10)
  else if ponID = 11 then some (mkOltConfig cfg.baseOID1 cfg.board2Pon11)
  else if ponID = 12 then some (mkOltConfig cfg.baseOID1 cfg.board2Pon12)
  else if ponID = 13 then some (mkOltConfig cfg.baseOID1 cfg.board2Pon13)
  else if ponID = 14 then some (mkOltConfig cfg.baseOID1 cfg.board2Pon14)
  else if ponID = 15 then some (mkOltConfig cfg.baseOID1 cfg.board2Pon15)
  else if ponID = 16 then some (mkOltConfig cfg.baseOID1 cfg.board2Pon16)
  else none

/-- `getBoardConfig` in `onu.go`: the switch on the board ID.  Only an
unknown board yields the error; boards 1 and 2 pass the (possibly nil)
per-board result through without an error. -/
def getBoardConfig (cfg : Config) (boardID ponID : Int) :
    Except String (Option OltConfig) :=
  if boardID = 1 then .ok (getBoard1Config cfg ponID)
  else if boardID = 2 then .ok (getBoard2Config cfg ponID)
  else .error "invalid Board ID"

/-! ### Uptime derivation (`getUptimeDuration` in `onu.go`) -/

/-- Modelled from the spec: `utils.ConvertDurationToString` lives in
`internal/utils`, which is not among the sources.  The spec says the
derived uptime is "formatted as a duration", and the collector reads
durations of the form "X days Y hours Z minutes W seconds"; negative
inputs have no specified rendering and clamp to zero here. -/
def convertDurationToString (d : Int) : String :=
  let total := d.toNat
  toString (total / 86400) ++ " days " ++ toString (total % 86400 / 3600)
    ++ " hours " ++ toString (total % 3600 / 60) ++ " minutes "
    ++ toString (total % 60) ++ " seconds"

/-- `getUptimeDuration` in `onu.go`, with `time.Parse` abstracted as
`timeParse` (epoch seconds) and `time.Now()` as `now`: fail when the
last-online string does not parse, otherwise format
`now − lastOnline + 7h` (`time.Hour*7`, the deployment-timezone
correction) as a duration. -/
def getUptimeDuration (timeParse : String → Option Int) (now : Int)
    (lastOnline : String) : Except Unit String :=
  match timeParse lastOnline with
  | none => .error ()
  | some lastOnlineTime =>
      .ok (convertDurationToString (now - lastOnlineTime + 7 * 3600))

/-- The uptime computation of `GetByBoardIDPonIDAndOnuID` (onu.go lines
740-744): only a non-empty `LastOnline` is considered, and only a
successful derivation overwrites the zero-valued (empty) `Uptime`. -/
def uptimeField (timeParse : String → Option Int) (now : Int)
    (lastOnline : String) : String :=
  if lastOnline ≠ "" then
    match getUptimeDuration timeParse now lastOnline with
    | .ok uptime => uptime
    | .error _ => ""
  else ""

/-! ### Pagination (`GetByBoardIDAndPonIDWithPagination` in `onu.go`) -/

/-- A Go slice expression `l[lo:hi]`: defined when `0 ≤ lo ≤ hi ≤ len(l)`,
a runtime panic (modelled as `none`) otherwise. -/
def goSlice {α : Type} (l : List α) (lo hi : Int) : Option (List α) :=
  if 0 ≤ lo ∧ lo ≤ hi ∧ hi ≤ (l.length : Int) then
    some ((l.take hi.toNat).drop lo.toNat)
  else none

/-- The per-ONU body of the pagination loop: board, pon and id always,
detail fields only when the detail fetch succeeds (Go leaves the zero
values in place on error). -/
def decorateOnu (fetchDetail : Int → Except Unit ONUCustomerInfo)
    (boardID ponID onuID : Int) : ONUInfoPerBoard :=
  match fetchDetail onuID with
  | .ok d =>
      { board := boardID, pon := ponID, id := onuID, name := d.name,
        onuType := d.onuType, serialNumber := d.serialNumber,
        rxPower := d.rxPower, status := d.status }
  | .error _ => { board := boardID, pon := ponID, id := onuID }

/-- The pagination core of `GetByBoardIDAndPonIDWithPagination` (onu.go
lines 952-999), over the walked ONU id list: count, start and end index,
clamp of the end index to the count, the slice (which panics — `none` —
when the start index is out of range), per-id detail decoration, and the
final sort by ONU id. -/
def getByBoardIDAndPonIDWithPagination
    (fetchDetail : Int → Except Unit ONUCustomerInfo) (boardID ponID : Int)
    (onlyOnuIDList : List Int) (pageIndex pageSize : Int) :
    Option (List ONUInfoPerBoard × Int) :=
  let count : Int := onlyOnuIDList.length
  let startIndex := (pageIndex - 1) * pageSize
  let endIndex := startIndex + pageSize
  let endIndex := if endIndex > count then count else endIndex
  match goSlice onlyOnuIDList startIndex endIndex with
  | none => none
  | some window =>
      some (List.insertionSort (fun a b => a.id ≤ b.id)
        (window.map (decorateOnu fetchDetail boardID ponID)), count)

/-! ### Theorems -/

/-- Looking a key up after a single merge of a two-record arrival list. -/
theorem mergeRecords_pair (r1 r2 : ONUCustomerInfo) :
    mergeRecords [r1, r2] = mergeOnu (mergeOnu [] r1) r2 := rfl

/-- C9: the exported numeric status is 1 for Online, 2 for Dying Gasp,
3 for LOS, 4 for Power-Off, and 0 for every other decoded status string;
the mapping is a total function (it cannot error). -/
theorem mapStatusToNumeric_spec (s : String)
    (h : s ≠ "Online" ∧ s ≠ "Dying Gasp" ∧ s ≠ "LOS" ∧ s ≠ "Power-Off") :
    mapStatusToNumeric "Online" = 1 ∧ mapStatusToNumeric "Dying Gasp" = 2 ∧
    mapStatusToNumeric "LOS" = 3 ∧ mapStatusToNumeric "Power-Off" = 4 ∧
    mapStatusToNumeric s = 0 := by
  obtain ⟨h1, h2, h3, h4⟩ := h
  refine ⟨rfl, rfl, rfl, rfl, ?_⟩
  simp [mapStatusToNumeric, h1, h2, h3, h4]

/-- Witness for C9 at the undocumented status string "Offline". -/
theorem mapStatusToNumeric_spec_witness :
    mapStatusToNumeric "Online" = 1 ∧ mapStatusToNumeric "Dying Gasp" = 2 ∧
    mapStatusToNumeric "LOS" = 3 ∧ mapStatusToNumeric "Power-Off" = 4 ∧
    mapStatusToNumeric "Offline" = 0 :=
  mapStatusToNumeric_spec "Offline" (by decide)

/-- C1: when two records share a non-empty serial number and exactly one
of them decodes to a status other than Unknown (numeric 0), the merge of
the pair keeps the non-Unknown record under that serial, in either
arrival order. -/
theorem merge_prefers_non_unknown (rU rG : ONUCustomerInfo) (s : String)
    (hs : s ≠ "") (h1 : rU.serialNumber = s) (h2 : rG.serialNumber = s)
    (hU : mapStatusToNumeric rU.status = 0)
    (hG : mapStatusToNumeric rG.status ≠ 0) :
    lookupSerial (mergeRecords [rU, rG]) s = some rG ∧
    lookupSerial (mergeRecords [rG, rU]) s = some rG := by
  constructor
  · simp [mergeRecords_pair, mergeOnu, h1, h2, hs, hU, hG, lookupSerial,
      storeSerial]
  · simp [mergeRecords_pair, mergeOnu, h1, h2, hs, hU, hG, lookupSerial,
      storeSerial]

/-- Witness for C1: Scenario B's duplicate serial, Unknown then LOS. -/
theorem merge_prefers_non_unknown_witness :
    lookupSerial
        (mergeRecords [{ serialNumber := "DUP01", status := "Unknown" },
          { serialNumber := "DUP01", status := "LOS" }]) "DUP01"
      = some { serialNumber := "DUP01", status := "LOS" } ∧
    lookupSerial
        (mergeRecords [{ serialNumber := "DUP01", status := "LOS" },
          { serialNumber := "DUP01", status := "Unknown" }]) "DUP01"
      = some { serialNumber := "DUP01", status := "LOS" } :=
  merge_prefers_non_unknown { serialNumber := "DUP01", status := "Unknown" }
    { serialNumber := "DUP01", status := "LOS" } "DUP01" (by decide) rfl rfl
    (by decide) (by decide)

/-- C2 counterexample: two distinct records share serial "DUP01" and both
decode to a non-Unknown status (LOS); the merge keeps the FIRST-merged
record, not the most recently merged one. -/
theorem merge_tie_keeps_first_counterexample :
    lookupSerial
        (mergeRecords [{ serialNumber := "DUP01", status := "LOS", name := "first" },
          { serialNumber := "DUP01", status := "LOS", name := "second" }]) "DUP01"
      = some { serialNumber := "DUP01", status := "LOS", name := "first" } ∧
    ({ serialNumber := "DUP01", status := "LOS", name := "first" } : ONUCustomerInfo)
      ≠ { serialNumber := "DUP01", status := "LOS", name := "second" } := by
  constructor
  · rfl
  · decide

/-- C2 amended: when two records share a non-empty serial number and their
statuses are both Unknown or both non-Unknown, the record merged FIRST is
kept; the later arrival is discarded. -/
theorem merge_tie_keeps_first (r1 r2 : ONUCustomerInfo) (s : String)
    (hs : s ≠ "") (h1 : r1.serialNumber = s) (h2 : r2.serialNumber = s)
    (htie : mapStatusToNumeric r1.status = 0 ↔ mapStatusToNumeric r2.status = 0) :
    lookupSerial (mergeRecords [r1, r2]) s = some r1 := by
  by_cases hz : mapStatusToNumeric r1.status = 0
  · have hz2 : mapStatusToNumeric r2.status = 0 := htie.mp hz
    simp [mergeRecords_pair, mergeOnu, h1, h2, hs, hz, hz2, lookupSerial,
      storeSerial]
  · simp [mergeRecords_pair, mergeOnu, h1, h2, hs, hz, lookupSerial,
      storeSerial]

/-- Witness for the amended C2: both records Online, the first one wins. -/
theorem merge_tie_keeps_first_witness :
    lookupSerial
        (mergeRecords [{ serialNumber := "SN1", status := "Online", name := "a" },
          { serialNumber := "SN1", status := "Online", name := "b" }]) "SN1"
      = some { serialNumber := "SN1", status := "Online", name := "a" } :=
  merge_tie_keeps_first { serialNumber := "SN1", status := "Online", name := "a" }
    { serialNumber := "SN1", status := "Online", name := "b" } "SN1" (by decide)
    rfl rfl (by decide)

/-- A key misses in `lookupSerial` exactly when it is not a key of the map. -/
theorem lookupSerial_eq_none_iff (m : UniqueOnuMap) (s : String) :
    lookupSerial m s = none ↔ s ∉ m.map Prod.fst := by
  induction m with
  | nil => simp [lookupSerial]
  | cons e rest ih =>
    obtain ⟨k, v⟩ := e
    by_cases h : k = s
    · subst h; simp [lookupSerial]
    · simp [lookupSerial, h, ih, Ne.symm h]

/-- Every entry after a `Store` is an old entry or the stored pair. -/
theorem storeSerial_mem (m : UniqueOnuMap) (s : String) (r : ONUCustomerInfo) :
    ∀ e ∈ storeSerial m s r, e ∈ m ∨ e = (s, r) := by
  induction m with
  | nil => simp [storeSerial]
  | cons hd rest ih =>
    obtain ⟨k, v⟩ := hd
    intro e he
    by_cases h : k = s
    · simp only [storeSerial, if_pos h] at he
      rcases List.mem_cons.mp he with he | he
      · right; exact he
      · left; exact List.mem_cons_of_mem _ he
    · simp only [storeSerial, if_neg h] at he
      rcases List.mem_cons.mp he with he | he
      · left; exact he ▸ List.mem_cons_self _ _
      · rcases ih e he with h' | h'
        · left; exact List.mem_cons_of_mem _ h'
        · right; exact h'

/-- Storing under a key already present leaves the key list unchanged. -/
theorem storeSerial_keys_of_mem (m : UniqueOnuMap) (s : String)
    (r : ONUCustomerInfo) (h : s ∈ m.map Prod.fst) :
    (storeSerial m s r).map Prod.fst = m.map Prod.fst := by
  induction m with
  | nil => simp at h
  | cons hd rest ih =>
    obtain ⟨k, v⟩ := hd
    by_cases hk : k = s
    · subst hk; simp [storeSerial]
    · simp only [List.map_cons, List.mem_cons] at h
      rcases h with h | h
      · exact absurd h.symm hk
      · simp [storeSerial, hk, ih h]

/-- Storing under a fresh key appends it to the key list. -/
theorem storeSerial_keys_of_not_mem (m : UniqueOnuMap) (s : String)
    (r : ONUCustomerInfo) (h : s ∉ m.map Prod.fst) :
    (storeSerial m s r).map Prod.fst = m.map Prod.fst ++ [s] := by
  induction m with
  | nil => simp [storeSerial]
  | cons hd rest ih =>
    obtain ⟨k, v⟩ := hd
    simp only [List.map_cons, List.mem_cons] at h
    push_neg at h
    have hk : k ≠ s := fun hks => h.1 hks.symm
    simp [storeSerial, hk, ih h.2]

/-- The Scrape Result invariant: every entry's key is a non-empty serial
number equal to the stored record's serial number, and the keys are
pairwise distinct. -/
def GoodMap (m : UniqueOnuMap) : Prop :=
  (∀ e ∈ m, e.1 ≠ "" ∧ e.2.serialNumber = e.1) ∧ (m.map Prod.fst).Nodup

/-- One merge step preserves the Scrape Result invariant. -/
theorem goodMap_mergeOnu (m : UniqueOnuMap) (r : ONUCustomerInfo)
    (h : GoodMap m) : GoodMap (mergeOnu m r) := by
  obtain ⟨hent, hnd⟩ := h
  unfold mergeOnu
  by_cases hser : r.serialNumber = ""
  · simpa [hser] using ⟨hent, hnd⟩
  · simp only [if_neg hser]
    rcases hlk : lookupSerial m r.serialNumber with _ | existing
    · -- fresh key: append
      have hmem : r.serialNumber ∉ m.map Prod.fst :=
        (lookupSerial_eq_none_iff m r.serialNumber).mp hlk
      refine ⟨?_, ?_⟩
      · intro e he
        rcases storeSerial_mem m r.serialNumber r e he with h' | h'
        · exact hent e h'
        · subst h'; exact ⟨hser, rfl⟩
      · rw [storeSerial_keys_of_not_mem m r.serialNumber r hmem]
        simp [List.nodup_append, hnd, List.disjoint_singleton, hmem]
    · -- existing key: either keep the map or replace the entry
      have hmem : r.serialNumber ∈ m.map Prod.fst := by
        by_contra hmem
        rw [← lookupSerial_eq_none_iff] at hmem
        rw [hmem] at hlk
        exact Option.noConfusion hlk
      by_cases hcond : mapStatusToNumeric existing.status = 0 ∧
          mapStatusToNumeric r.status ≠ 0
      · simp only [if_pos hcond]
        refine ⟨?_, ?_⟩
        · intro e he
          rcases storeSerial_mem m r.serialNumber r e he with h' | h'
          · exact hent e h'
          · subst h'; exact ⟨hser, rfl⟩
        · rw [storeSerial_keys_of_mem m r.serialNumber r hmem]; exact hnd
      · simp only [if_neg hcond]
        exact ⟨hent, hnd⟩

/-- The invariant holds of the merge of any arrival list. -/
theorem goodMap_mergeRecords (rs : List ONUCustomerInfo) :
    GoodMap (mergeRecords rs) := by
  suffices h : ∀ m : UniqueOnuMap, GoodMap m → GoodMap (rs.foldl mergeOnu m) by
    exact h [] ⟨by simp, by simp⟩
  induction rs with
  | nil => intro m hm; exact hm
  | cons r rest ih =>
    intro m hm
    exact ih (mergeOnu m r) (goodMap_mergeOnu m r hm)

/-- The rx-power block only ever emits the record's own serial number. -/
theorem rxPowerMetric_serial (parseFloat : String → Option Rat)
    (r : ONUCustomerInfo) :
    ∀ mt ∈ rxPowerMetric parseFloat r, mt.serial = r.serialNumber := by
  intro mt hmt
  unfold rxPowerMetric at hmt
  split at hmt
  · split at hmt
    · obtain rfl := List.mem_singleton.mp hmt
      rfl
    · simp at hmt
  · simp at hmt

/-- The tx-power block only ever emits the record's own serial number. -/
theorem txPowerMetric_serial (parseFloat : String → Option Rat)
    (r : ONUCustomerInfo) :
    ∀ mt ∈ txPowerMetric parseFloat r, mt.serial = r.serialNumber := by
  intro mt hmt
  unfold txPowerMetric at hmt
  split at hmt
  · split at hmt
    · obtain rfl := List.mem_singleton.mp hmt
      rfl
    · simp at hmt
  · simp at hmt

/-- The distance block only ever emits the record's own serial number. -/
theorem gponOpticalDistanceMetric_serial (parseFloat : String → Option Rat)
    (r : ONUCustomerInfo) :
    ∀ mt ∈ gponOpticalDistanceMetric parseFloat r, mt.serial = r.serialNumber := by
  intro mt hmt
  unfold gponOpticalDistanceMetric at hmt
  split at hmt
  · obtain rfl := List.mem_singleton.mp hmt
    rfl
  · simp at hmt

/-- Every sample `sendMetrics` emits for a record carries that record's
serial number as its `serial_number` label. -/
theorem sendMetrics_serial (parseFloat : String → Option Rat)
    (timeParse : String → Option Int) (r : ONUCustomerInfo) :
    ∀ mt ∈ sendMetrics parseFloat timeParse r, mt.serial = r.serialNumber := by
  intro mt hmt
  unfold sendMetrics at hmt
  simp only [List.mem_append] at hmt
  rcases hmt with ((hmt | hmt) | hmt) | hmt
  · rcases List.mem_cons.mp hmt with rfl | hmt
    · rfl
    · rcases List.mem_cons.mp hmt with rfl | hmt
      · rfl
      · simp at hmt
  · by_cases hst : r.status = "Online"
    · rw [if_pos hst, List.mem_append] at hmt
      rcases hmt with hmt | hmt
      · exact rxPowerMetric_serial parseFloat r mt hmt
      · exact txPowerMetric_serial parseFloat r mt hmt
    · rw [if_neg hst] at hmt; simp at hmt
  · rcases List.mem_cons.mp hmt with rfl | hmt
    · rfl
    · rcases List.mem_cons.mp hmt with rfl | hmt
      · rfl
      · rcases List.mem_cons.mp hmt with rfl | hmt
        · rfl
        · rcases List.mem_cons.mp hmt with rfl | hmt
          · rfl
          · simp at hmt
  · exact gponOpticalDistanceMetric_serial parseFloat r mt hmt

/-- C3: a record with an empty serial number is dropped before the merge,
so every entry of the final Scrape Result has a non-empty serial number
equal to its key, the serial numbers of the result are pairwise distinct,
and every emitted sample carries a non-empty serial number. -/
theorem scrape_result_serials (parseFloat : String → Option Rat)
    (timeParse : String → Option Int) (rs : List ONUCustomerInfo) :
    (∀ e ∈ mergeRecords rs, e.1 ≠ "" ∧ e.2.serialNumber = e.1) ∧
    ((mergeRecords rs).map Prod.fst).Nodup ∧
    (∀ mt ∈ (mergeRecords rs).flatMap
        (fun e => sendMetrics parseFloat timeParse e.2), mt.serial ≠ "") := by
  obtain ⟨hent, hnd⟩ := goodMap_mergeRecords rs
  refine ⟨hent, hnd, ?_⟩
  intro mt hmt
  rw [List.mem_flatMap] at hmt
  obtain ⟨e, hem, hmem⟩ := hmt
  rw [sendMetrics_serial parseFloat timeParse e.2 mt hmem]
  obtain ⟨hne, heq⟩ := hent e hem
  rw [heq]
  exact hne

/-- The rx-power block emits exactly the parsed reading, and only when it
is below 100. -/
theorem mem_rxPowerMetric (parseFloat : String → Option Rat)
    (r : ONUCustomerInfo) (v : Rat) :
    Metric.rxPower r.serialNumber v ∈ rxPowerMetric parseFloat r ↔
      parseFloat r.rxPower = some v ∧ v < 100 := by
  unfold rxPowerMetric
  rcases hp : parseFloat r.rxPower with _ | rx
  · simp
  · by_cases hrx : rx < 100
    · simp only [if_pos hrx, List.mem_singleton]
      constructor
      · intro h
        obtain rfl : v = rx := by injection h
        exact ⟨rfl, hrx⟩
      · rintro ⟨h, _⟩
        obtain rfl : rx = v := by injection h
        rfl
    · simp only [if_neg hrx]
      simp only [List.not_mem_nil, false_iff, not_and]
      intro h
      obtain rfl : rx = v := by injection h
      exact fun hv => hrx hv

/-- The tx-power block emits exactly the parsed reading, and only when it
is below 100. -/
theorem mem_txPowerMetric (parseFloat : String → Option Rat)
    (r : ONUCustomerInfo) (v : Rat) :
    Metric.txPower r.serialNumber v ∈ txPowerMetric parseFloat r ↔
      parseFloat r.txPower = some v ∧ v < 100 := by
  unfold txPowerMetric
  rcases hp : parseFloat r.txPower with _ | tx
  · simp
  · by_cases htx : tx < 100
    · simp only [if_pos htx, List.mem_singleton]
      constructor
      · intro h
        obtain rfl : v = tx := by injection h
        exact ⟨rfl, htx⟩
      · rintro ⟨h, _⟩
        obtain rfl : tx = v := by injection h
        rfl
    · simp only [if_neg htx]
      simp only [List.not_mem_nil, false_iff, not_and]
      intro h
      obtain rfl : tx = v := by injection h
      exact fun hv => htx hv

/-- An rx-power sample never comes from the tx-power block. -/
theorem rx_not_mem_txPowerMetric (parseFloat : String → Option Rat)
    (r : ONUCustomerInfo) (v : Rat) :
    Metric.rxPower r.serialNumber v ∉ txPowerMetric parseFloat r := by
  intro h
  have := txPowerMetric_serial parseFloat r _ h
  unfold txPowerMetric at h
  split at h
  · split at h
    · exact Metric.noConfusion (List.mem_singleton.mp h)
    · simp at h
  · simp at h

/-- A tx-power sample never comes from the rx-power block. -/
theorem tx_not_mem_rxPowerMetric (parseFloat : String → Option Rat)
    (r : ONUCustomerInfo) (v : Rat) :
    Metric.txPower r.serialNumber v ∉ rxPowerMetric parseFloat r := by
  intro h
  unfold rxPowerMetric at h
  split at h
  · split at h
    · exact Metric.noConfusion (List.mem_singleton.mp h)
    · simp at h
  · simp at h

/-- A power sample never comes from the distance block. -/
theorem power_not_mem_distanceMetric (parseFloat : String → Option Rat)
    (r : ONUCustomerInfo) (v : Rat) :
    Metric.rxPower r.serialNumber v ∉ gponOpticalDistanceMetric parseFloat r ∧
    Metric.txPower r.serialNumber v ∉ gponOpticalDistanceMetric parseFloat r := by
  constructor <;>
    · intro h
      unfold gponOpticalDistanceMetric at h
      split at h
      · exact Metric.noConfusion (List.mem_singleton.mp h)
      · simp at h

/-- C7: an rx-power (resp. tx-power) sample is emitted for a record exactly
when its status is `Online` and its rx (resp. tx) power string parses to a
reading strictly below 100.  In particular a reading of 100 or more is
never emitted, whatever the status, and no power sample is emitted for a
non-Online status. -/
theorem power_metrics_gating (parseFloat : String → Option Rat)
    (timeParse : String → Option Int) (r : ONUCustomerInfo) :
    ((∃ v, Metric.rxPower r.serialNumber v ∈ sendMetrics parseFloat timeParse r) ↔
      (r.status = "Online" ∧ ∃ v, parseFloat r.rxPower = some v ∧ v < 100)) ∧
    ((∃ v, Metric.txPower r.serialNumber v ∈ sendMetrics parseFloat timeParse r) ↔
      (r.status = "Online" ∧ ∃ v, parseFloat r.txPower = some v ∧ v < 100)) := by
  have hmem : ∀ v : Rat,
      (Metric.rxPower r.serialNumber v ∈ sendMetrics parseFloat timeParse r ↔
        r.status = "Online" ∧ parseFloat r.rxPower = some v ∧ v < 100) ∧
      (Metric.txPower r.serialNumber v ∈ sendMetrics parseFloat timeParse r ↔
        r.status = "Online" ∧ parseFloat r.txPower = some v ∧ v < 100) := by
    intro v
    by_cases hst : r.status = "Online"
    · constructor
      · simp [sendMetrics, hst, mem_rxPowerMetric,
          rx_not_mem_txPowerMetric parseFloat r v,
          (power_not_mem_distanceMetric parseFloat r v).1]
      · simp [sendMetrics, hst, mem_txPowerMetric,
          tx_not_mem_rxPowerMetric parseFloat r v,
          (power_not_mem_distanceMetric parseFloat r v).2]
    · constructor
      · simp [sendMetrics, hst,
          (power_not_mem_distanceMetric parseFloat r v).1]
      · simp [sendMetrics, hst,
          (power_not_mem_distanceMetric parseFloat r v).2]
  constructor
  · constructor
    · rintro ⟨v, hv⟩
      obtain ⟨hon, hp, hlt⟩ := ((hmem v).1).mp hv
      exact ⟨hon, v, hp, hlt⟩
    · rintro ⟨hon, v, hp, hlt⟩
      exact ⟨v, ((hmem v).1).mpr ⟨hon, hp, hlt⟩⟩
  · constructor
    · rintro ⟨v, hv⟩
      obtain ⟨hon, hp, hlt⟩ := ((hmem v).2).mp hv
      exact ⟨hon, v, hp, hlt⟩
    · rintro ⟨hon, v, hp, hlt⟩
      exact ⟨v, ((hmem v).2).mpr ⟨hon, hp, hlt⟩⟩

/-- `Except.toOption` recovers exactly the successful results. -/
theorem exceptToOption_eq_some {ε α : Type} (e : Except ε α) (a : α) :
    e.toOption = some a ↔ e = .ok a := by
  cases e <;> simp [Except.toOption]

/-- Membership in one cell's contribution to the merge. -/
theorem mem_cellRecords (env : ScrapeEnv) (b p : Int) (r : ONUCustomerInfo) :
    r ∈ cellRecords env b p ↔
      ∃ onus, env.discover b p = .ok onus ∧
        ∃ o ∈ onus, env.fetchDetail b p o.id = .ok r := by
  unfold cellRecords
  rcases hd : env.discover b p with e | onus
  · simp
  · simp [List.mem_filterMap, exceptToOption_eq_some]

/-- C6: failures stay local to their cell or device.  A record reaches the
merge exactly when some cell of the scanned matrix discovers it and its own
detail fetch succeeds — so a failed discovery or a failed fetch removes
only its own contributions; a cell's contribution is empty whenever its
discovery walk fails; and a cell's contribution depends only on that cell's
discovery and fetch outcomes, never on another cell's failures.  `Collect`
itself is total: it returns a record list, no error escapes the cycle. -/
theorem collect_failures_are_local (env env2 : ScrapeEnv)
    (boardMin boardMax ponMin ponMax b p : Int) (r : ONUCustomerInfo) :
    (r ∈ collectArrivals env boardMin boardMax ponMin ponMax ↔
      ∃ b2 ∈ intRange boardMin boardMax, ∃ p2 ∈ intRange ponMin ponMax,
        ∃ onus, env.discover b2 p2 = .ok onus ∧
          ∃ o ∈ onus, env.fetchDetail b2 p2 o.id = .ok r) ∧
    (∀ e, env.discover b p = .error e → cellRecords env b p = []) ∧
    (env.discover b p = env2.discover b p →
      (∀ i, env.fetchDetail b p i = env2.fetchDetail b p i) →
      cellRecords env b p = cellRecords env2 b p) := by
  refine ⟨?_, ?_, ?_⟩
  · unfold collectArrivals
    constructor
    · intro hr
      obtain ⟨outer, houter, hro⟩ := List.mem_flatten.mp hr
      obtain ⟨b2, hb2, rfl⟩ := List.mem_map.mp houter
      obtain ⟨inner, hinner, hri⟩ := List.mem_flatten.mp hro
      obtain ⟨p2, hp2, rfl⟩ := List.mem_map.mp hinner
      obtain ⟨onus, hok, o, ho, hf⟩ := (mem_cellRecords env b2 p2 r).mp hri
      exact ⟨b2, hb2, p2, hp2, onus, hok, o, ho, hf⟩
    · rintro ⟨b2, hb2, p2, hp2, onus, hok, o, ho, hf⟩
      refine List.mem_flatten.mpr ⟨_, List.mem_map.mpr ⟨b2, hb2, rfl⟩, ?_⟩
      refine List.mem_flatten.mpr ⟨_, List.mem_map.mpr ⟨p2, hp2, rfl⟩, ?_⟩
      exact (mem_cellRecords env b2 p2 r).mpr ⟨onus, hok, o, ho, hf⟩
  · intro e he
    unfold cellRecords
    rw [he]
  · intro hdisc hfetch
    unfold cellRecords
    rw [hdisc]
    rcases env2.discover b p with e | onus
    · rfl
    · simp only [hfetch]

/-- C4 (code-bug evidence): for a board in {1,2} but a PON outside 1..16,
`getBoardConfig` returns a nil Address Set (`none`) WITHOUT an error — not
the `AddressNotFound`-style failure the spec requires (its caller
dereferences the nil pointer) — while an unknown board does fail.
In-domain pairs resolve to the matching per-cell Address Set. -/
theorem getBoardConfig_invalid_pon_without_error (cfg : Config) :
    getBoardConfig cfg 1 17 = .ok none ∧
    getBoardConfig cfg 2 0 = .ok none ∧
    getBoardConfig cfg 3 5 = .error "invalid Board ID" ∧
    getBoardConfig cfg 1 1 = .ok (some (mkOltConfig cfg.baseOID1 cfg.board1Pon1)) ∧
    getBoardConfig cfg 2 16 = .ok (some (mkOltConfig cfg.baseOID1 cfg.board2Pon16)) :=
  ⟨rfl, rfl, rfl, rfl, rfl⟩

/-- C8: when the last-online string is non-empty and parses, the derived
uptime is `now − lastOnline + 7h` formatted as a duration; for an empty or
unparseable last-online the uptime stays the empty string without any
failure escaping, and the collector exports that empty uptime as 0. -/
theorem uptime_derivation (timeParse : String → Option Int) (now t : Int)
    (lastOnline badLastOnline : String) (hne : lastOnline ≠ "")
    (hp : timeParse lastOnline = some t)
    (hbad : badLastOnline = "" ∨ timeParse badLastOnline = none) :
    uptimeField timeParse now lastOnline =
      convertDurationToString (now - t + 7 * 3600) ∧
    uptimeField timeParse now badLastOnline = "" ∧
    parseDurationStringToSeconds "" = 0 := by
  refine ⟨?_, ?_, rfl⟩
  · simp [uptimeField, getUptimeDuration, hne, hp]
  · rcases hbad with hbad | hbad
    · simp [uptimeField, hbad]
    · by_cases hb : badLastOnline = ""
      · simp [uptimeField, hb]
      · simp [uptimeField, getUptimeDuration, hb, hbad]

/-- Witness for C8: one parseable timestamp, one empty one. -/
theorem uptime_derivation_witness :
    uptimeField (fun s => if s = "2024-05-01 00:00:00" then some 1714521600 else none)
        1714525200 "2024-05-01 00:00:00" =
      convertDurationToString (1714525200 - 1714521600 + 7 * 3600) ∧
    uptimeField (fun s => if s = "2024-05-01 00:00:00" then some 1714521600 else none)
        1714525200 "" = "" ∧
    parseDurationStringToSeconds "" = 0 :=
  uptime_derivation
    (fun s => if s = "2024-05-01 00:00:00" then some 1714521600 else none)
    1714525200 1714521600 "2024-05-01 00:00:00" "" (by decide) (by decide)
    (Or.inl rfl)

/-- A Go slice succeeds exactly under its bounds condition. -/
theorem goSlice_eq_some {α : Type} (l : List α) (lo hi : Int)
    (h : 0 ≤ lo ∧ lo ≤ hi ∧ hi ≤ (l.length : Int)) :
    goSlice l lo hi = some ((l.take hi.toNat).drop lo.toNat) := by
  unfold goSlice
  rw [if_pos h]

/-- A Go slice panics (`none`) outside its bounds condition. -/
theorem goSlice_eq_none {α : Type} (l : List α) (lo hi : Int)
    (h : ¬(0 ≤ lo ∧ lo ≤ hi ∧ hi ≤ (l.length : Int))) :
    goSlice l lo hi = none := by
  unfold goSlice
  rw [if_neg h]

/-- C10: with `pageIndex ≥ 1`, `pageSize ≥ 0` and a start index
`(pageIndex − 1) × pageSize` at most the discovered count, pagination
returns the decorated, id-sorted window of the discovered ids from the
start index up to `min(start + pageSize, count)`, together with the total
count.  The precondition is necessary: as soon as the start index exceeds
the count the slice bounds are out of range and the operation fails
(`none`) instead of returning an empty page. -/
theorem pagination_window (fetchDetail : Int → Except Unit ONUCustomerInfo)
    (boardID ponID : Int) (ids : List Int)
    (pageIndex pageSize badPage badSize : Int)
    (h1 : 1 ≤ pageIndex) (h2 : 0 ≤ pageSize)
    (h3 : (pageIndex - 1) * pageSize ≤ (ids.length : Int))
    (_h4 : 1 ≤ badPage) (_h5 : 0 ≤ badSize)
    (h6 : (ids.length : Int) < (badPage - 1) * badSize) :
    getByBoardIDAndPonIDWithPagination fetchDetail boardID ponID ids
        pageIndex pageSize
      = some (List.insertionSort (fun a b => a.id ≤ b.id)
          (((ids.take (min ((pageIndex - 1) * pageSize + pageSize)
                (ids.length : Int)).toNat).drop
              ((pageIndex - 1) * pageSize).toNat).map
            (decorateOnu fetchDetail boardID ponID)), (ids.length : Int)) ∧
    getByBoardIDAndPonIDWithPagination fetchDetail boardID ponID ids
        badPage badSize
      = none := by
  have hstart : 0 ≤ (pageIndex - 1) * pageSize :=
    mul_nonneg (by omega) h2
  constructor
  · simp only [getByBoardIDAndPonIDWithPagination]
    have hmin : (if (pageIndex - 1) * pageSize + pageSize > (ids.length : Int)
        then (ids.length : Int) else (pageIndex - 1) * pageSize + pageSize)
        = min ((pageIndex - 1) * pageSize + pageSize) (ids.length : Int) := by
      split_ifs <;> omega
    rw [hmin, goSlice_eq_some ids _ _ ⟨hstart, le_min (by omega) h3, min_le_right _ _⟩]
  · simp only [getByBoardIDAndPonIDWithPagination]
    rw [goSlice_eq_none]
    rintro ⟨-, hc2, -⟩
    revert hc2
    split_ifs <;> omega

/-- Witness for C10: page 2 of size 2 over three discovered ids succeeds
with the one-element window; page 3 of size 2 panics. -/
theorem pagination_window_witness :
    getByBoardIDAndPonIDWithPagination (fun _ => Except.error ()) 1 1
        [10, 20, 30] 2 2
      = some (List.insertionSort (fun a b => a.id ≤ b.id)
          ((([10, 20, 30].take (min ((2 - 1) * 2 + 2 : Int)
                ((([10, 20, 30] : List Int).length : Int))).toNat).drop
              ((2 - 1) * 2 : Int).toNat).map
            (decorateOnu (fun _ => Except.error ()) 1 1)),
          (([10, 20, 30] : List Int).length : Int)) ∧
    getByBoardIDAndPonIDWithPagination (fun _ => Except.error ()) 1 1
        [10, 20, 30] 3 2
      = none :=
  pagination_window (fun _ => Except.error ()) 1 1 [10, 20, 30] 2 2 3 2
    (by decide) (by decide) (by decide) (by decide) (by decide) (by decide)

end ZteOlt
